import Mathlib

/-!
Shallow embedding of the playlist-resolution and assignment surface of
`production_app.py` (digital-signage backend).  The SQLite tables become
lists of records, each Flask endpoint a pure function from a `DB` state
(plus the request payload and a clock value) to a new state and a
response.  SQL `NULL` is `Option.none`; dates, times-of-day and
timestamps are naturals (days, minutes-since-midnight, abstract ticks).
-/

namespace Signage

/-- Day of week; `get_playlist` derives the lowercase three-letter token
via `today.strftime` and compares it against the stored weekday list. -/
inductive Weekday where
  | mon | tue | wed | thu | fri | sat | sun
deriving DecidableEq, Repr

/-- The lowercase token produced by `today.strftime` in `get_playlist`. -/
def Weekday.token : Weekday → String
  | .mon => "mon"
  | .tue => "tue"
  | .wed => "wed"
  | .thu => "thu"
  | .fri => "fri"
  | .sat => "sat"
  | .sun => "sun"

/-- Row of the `media` table. -/
structure Media where
  id : Nat
  filename : String
  original_name : String
  file_type : String
  file_size : Nat
  created_at : Nat
  video_duration : Option Nat
deriving DecidableEq, Repr

/-- Row of the `devices` table. -/
structure Device where
  device_id : String
  device_name : String
  custom_name : Option String
  location : Option String
  last_checkin : Option Nat
  is_active : Bool
  ip_address : Option String
  app_version : String
  created_at : Nat
deriving DecidableEq, Repr

/-- Row of the `device_content` table (a schedule rule).  `days_of_week`
is `none` when the column is NULL or the empty string (both falsy in
`get_playlist`); `some l` models a stored JSON list `l`. -/
structure Rule where
  id : Nat
  device_id : String
  media_id : Nat
  start_date : Option Nat
  end_date : Option Nat
  days_of_week : Option (List String)
  display_duration : Option Nat
  video_duration : Option Nat
  start_time : Option Nat
  end_time : Option Nat
  is_active : Bool
  play_order : Option Int
  created_at : Nat
deriving DecidableEq, Repr

/-- Row of the `playback_analytics` table (fields the core touches). -/
structure Analytics where
  id : Nat
  device_id : String
  media_id : Option Nat
deriving DecidableEq, Repr

/-- The persistent state: the four tables, the AUTOINCREMENT counter for
`device_content.id`, and the process-wide `LAST_CONTENT_UPDATE`. -/
structure DB where
  media : List Media
  devices : List Device
  rules : List Rule
  analytics : List Analytics
  nextRuleId : Nat
  lastContentUpdate : Nat
deriving DecidableEq, Repr

/-- HTTP-level outcomes the embedded endpoints distinguish. -/
inductive Resp where
  /-- a 200 response whose body reports success -/
  | success
  /-- 400 "Device ID and Media ID required" / "Media ID required" -/
  | validationError
  /-- 400 "Content already assigned to this device" -/
  | duplicateError
  /-- 404 "Media not found" -/
  | notFoundError
  /-- 500 handler (the catch-all `except` branch) -/
  | serverError
deriving DecidableEq, Repr

/-- `update_content_timestamp()`: `LAST_CONTENT_UPDATE = time.time()`. -/
def updateContentTimestamp (db : DB) (now : Nat) : DB :=
  { db with lastContentUpdate := now }

/-- The duplicate-assignment probe shared by `assign_content` and
`assign_all_devices`:
`SELECT id FROM device_content WHERE device_id = ? AND media_id = ? AND is_active = 1`. -/
def hasActivePair (rules : List Rule) (device_id : String) (media_id : Nat) : Bool :=
  rules.any (fun r => r.device_id == device_id && r.media_id == media_id && r.is_active)

/-- `SELECT COALESCE(MAX(play_order), 0) + 1 FROM device_content
WHERE device_id = ? AND is_active = 1`: SQL `MAX` ignores NULLs and is
NULL on an empty set, which `COALESCE` turns into 0. -/
def nextPlayOrder (rules : List Rule) (device_id : String) : Int :=
  let vals := ((rules.filter (fun r => r.device_id == device_id && r.is_active)).filterMap
    (fun r => r.play_order))
  (match vals with
   | [] => 0
   | v :: vs => vs.foldl max v) + 1

/-- The row inserted by `assign_content` / `assign_all_devices`:
`INSERT INTO device_content (device_id, media_id, display_duration, play_order, is_active)
VALUES (?, ?, ?, ?, 1)`; all other columns take their defaults (NULL,
except `created_at`, which defaults to the current timestamp). -/
def freshRule (rid : Nat) (device_id : String) (media_id : Nat) (duration : Option Nat)
    (norder : Int) (now : Nat) : Rule :=
  { id := rid, device_id := device_id, media_id := media_id,
    start_date := none, end_date := none, days_of_week := none,
    display_duration := duration, video_duration := none,
    start_time := none, end_time := none,
    is_active := true, play_order := some norder, created_at := now }

/-- `POST /api/assign-content` (`assign_content`).  `duration` is the
payload's `display_duration` with Python-side default 10.  The guard
`if not device_id or not media_id` rejects falsy values (empty string,
media id 0). -/
def assignContent (db : DB) (device_id : String) (media_id : Nat) (duration : Option Nat)
    (now : Nat) : DB × Resp :=
  if device_id == "" || media_id == 0 then (db, .validationError)
  else if hasActivePair db.rules device_id media_id then (db, .duplicateError)
  else
    let norder := nextPlayOrder db.rules device_id
    ({ db with
        rules := db.rules ++ [freshRule db.nextRuleId device_id media_id duration norder now],
        nextRuleId := db.nextRuleId + 1,
        lastContentUpdate := now },
     .success)

/-- One iteration of the device loop in `assign_all_devices`: skip the
device when the active pair already exists, otherwise insert a fresh
assignment and count it. -/
def assignAllStep (media_id : Nat) (duration : Option Nat) (now : Nat)
    (acc : DB × Nat) (device_id : String) : DB × Nat :=
  if hasActivePair acc.1.rules device_id media_id then acc
  else
    let norder := nextPlayOrder acc.1.rules device_id
    ({ acc.1 with
        rules := acc.1.rules ++ [freshRule acc.1.nextRuleId device_id media_id duration norder now],
        nextRuleId := acc.1.nextRuleId + 1 },
     acc.2 + 1)

/-- `POST /api/assign-all-devices` (`assign_all_devices`): iterate the
active devices (`SELECT device_id FROM devices WHERE is_active = 1`),
insert where the pair is missing, return the count of new assignments. -/
def assignAllDevices (db : DB) (media_id : Nat) (duration : Option Nat) (now : Nat) :
    DB × Nat × Resp :=
  if media_id == 0 then (db, 0, .validationError)
  else
    let devs := (db.devices.filter (fun dv => dv.is_active)).map (fun dv => dv.device_id)
    let acc := devs.foldl (assignAllStep media_id duration now) (db, 0)
    (updateContentTimestamp acc.1 now, acc.2, .success)

/-- `PUT /api/media/<id>/toggle` (`toggle_media_status`):
`UPDATE device_content SET is_active = ? WHERE media_id = ?`. -/
def toggleMediaStatus (db : DB) (media_id : Nat) (active : Bool) (now : Nat) : DB × Resp :=
  (updateContentTimestamp
    { db with rules := db.rules.map (fun r =>
        if r.media_id == media_id then { r with is_active := active } else r) } now,
   .success)

/-- `DELETE /api/media/<id>` (`delete_media`).  `fileOnDisk` models
`os.path.exists(file_path)` and `removeFails` models `os.remove`
raising; the raise is caught by the endpoint's catch-all `except`,
which answers 500 — but only after the three DELETEs were committed. -/
def deleteMedia (db : DB) (media_id : Nat) (fileOnDisk removeFails : Bool) (now : Nat) :
    DB × Resp :=
  match db.media.find? (fun m => m.id == media_id) with
  | none => (db, .notFoundError)
  | some _ =>
    let db1 := updateContentTimestamp
      { db with
          rules := db.rules.filter (fun r => !(r.media_id == media_id)),
          analytics := db.analytics.filter (fun a => !(a.media_id == some media_id)),
          media := db.media.filter (fun m => !(m.id == media_id)) } now
    if fileOnDisk && removeFails then (db1, .serverError) else (db1, .success)

/-- `PUT /api/device-content/<id>` (`update_device_content`):
`UPDATE device_content SET display_duration = ? WHERE id = ?`.
Note: this endpoint commits without calling `update_content_timestamp`. -/
def updateDeviceContent (db : DB) (assignment_id : Nat) (duration : Option Nat) : DB × Resp :=
  ({ db with rules := db.rules.map (fun r =>
      if r.id == assignment_id then { r with display_duration := duration } else r) },
   .success)

/-- `PUT /api/device/reorder-content` (`reorder_device_content`): for
each `(assignment_id, play_order)` item, `UPDATE device_content SET
play_order = ? WHERE id = ? AND device_id = ?`. -/
def reorderDeviceContent (db : DB) (device_id : String) (items : List (Nat × Option Int))
    (now : Nat) : DB × Resp :=
  (updateContentTimestamp
    { db with rules := items.foldl (fun rs item =>
        rs.map (fun r =>
          if r.id == item.1 && r.device_id == device_id then { r with play_order := item.2 }
          else r)) db.rules } now,
   .success)

/-- `DELETE /api/remove-content/<id>` (`remove_content`):
`DELETE FROM device_content WHERE id = ?`. -/
def removeContent (db : DB) (assignment_id : Nat) (now : Nat) : DB × Resp :=
  (updateContentTimestamp
    { db with rules := db.rules.filter (fun r => !(r.id == assignment_id)) } now,
   .success)

/-- `PUT /api/device/<id>` (`update_device`): the payload fields default
to the empty string (`data.get` with an empty-string default) and both columns are
overwritten unconditionally. -/
def updateDevice (db : DB) (device_id : String) (custom_name location : Option String) :
    DB × Resp :=
  ({ db with devices := db.devices.map (fun dv =>
      if dv.device_id == device_id then
        { dv with custom_name := some (custom_name.getD ""),
                  location := some (location.getD "") }
      else dv) },
   .success)

/-- The check-in block at the top of `get_playlist`: an existing device
row gets only `last_checkin`, `is_active` and `ip_address` rewritten; an
unknown device id is inserted with the generated `TV-` name, the other
columns taking their defaults. -/
def deviceCheckin (db : DB) (device_id addr : String) (now : Nat) : DB :=
  if db.devices.any (fun dv => dv.device_id == device_id) then
    { db with devices := db.devices.map (fun dv =>
        if dv.device_id == device_id then
          { dv with last_checkin := some now, is_active := true, ip_address := some addr }
        else dv) }
  else
    { db with devices := db.devices ++
        [{ device_id := device_id, device_name := "TV-" ++ device_id.take 8,
           custom_name := none, location := none, last_checkin := some now,
           is_active := true, ip_address := some addr, app_version := "1.0",
           created_at := now }] }

/-- The point in time a playlist is resolved at: calendar day, weekday
of that day, and minutes since midnight. -/
structure AsOf where
  date : Nat
  weekday : Weekday
  time : Nat
deriving DecidableEq, Repr

/-- The date-bounds part of the playlist query's WHERE clause:
`(start_date IS NULL OR start_date <= today) AND (end_date IS NULL OR end_date >= today)`. -/
def dateOk (r : Rule) (today : Nat) : Bool :=
  (match r.start_date with
   | none => true
   | some sd => sd ≤ today) &&
  (match r.end_date with
   | none => true
   | some ed => today ≤ ed)

/-- The sort key of `ORDER BY dc.play_order, dc.created_at`: ascending,
with SQL NULL ordering first. -/
def rowLE (a b : Option Int × Nat) : Bool :=
  match a, b with
  | (none, c1), (none, c2) => decide (c1 ≤ c2)
  | (none, _), (some _, _) => true
  | (some _, _), (none, _) => false
  | (some x, c1), (some y, c2) =>
      decide (x < y) || (decide (x = y) && decide (c1 ≤ c2))

/-- Sort key of a rule row. -/
def sortKey (r : Rule) : Option Int × Nat := (r.play_order, r.created_at)

/-- Stable insertion used to realize the ORDER BY. -/
def insertRow (x : Rule × Media) : List (Rule × Media) → List (Rule × Media)
  | [] => [x]
  | y :: ys => if rowLE (sortKey y.1) (sortKey x.1) then y :: insertRow x ys else x :: y :: ys

/-- Stable sort by `(play_order, created_at)`. -/
def sortRows : List (Rule × Media) → List (Rule × Media)
  | [] => []
  | x :: xs => insertRow x (sortRows xs)

/-- `JOIN media m ON dc.media_id = m.id`. -/
def joinMedia (media : List Media) (rules : List Rule) : List (Rule × Media) :=
  rules.filterMap (fun r => (media.find? (fun m => m.id == r.media_id)).map (fun m => (r, m)))

/-- The playlist query of `get_playlist`: device-scoped, active-only,
date-bounded rows joined with their media, ordered by
`(play_order, created_at)`. -/
def fetchRows (db : DB) (device_id : String) (today : Nat) : List (Rule × Media) :=
  sortRows (joinMedia db.media (db.rules.filter (fun r =>
    r.device_id == device_id && r.is_active && dateOk r today)))

/-- The four-way day-of-week disjunction of `get_playlist`, on the
already-deserialized weekday list. -/
def dayMatchesList (days : List String) (current_day : String) : Bool :=
  days.contains "all" || days.contains current_day ||
    (["mon", "tue", "wed", "thu", "fri"].contains current_day && days.contains "weekdays") ||
    (["sat", "sun"].contains current_day && days.contains "weekends")

/-- The day-of-week check in `get_playlist`:
`days_of_week = json.loads(days_json) if days_json else ['all']` followed
by the four-way membership disjunction. -/
def dayMatches (days_of_week : Option (List String)) (current_day : String) : Bool :=
  dayMatchesList
    (match days_of_week with
     | none => ["all"]
     | some l => l)
    current_day

/-- The time-of-day check in `get_playlist`: filtering happens only when
both `start_time` and `end_time` are truthy, and is then the inclusive
`start_time <= current_time <= end_time`. -/
def timeMatches (st et : Option Nat) (t : Nat) : Bool :=
  match st, et with
  | some s, some e => decide (s ≤ t) && decide (t ≤ e)
  | _, _ => true

/-- Predicate gating a fetched row into the playlist. -/
def rowKept (asOf : AsOf) (rm : Rule × Media) : Bool :=
  dayMatches rm.1.days_of_week asOf.weekday.token &&
    timeMatches rm.1.start_time rm.1.end_time asOf.time

/-- The row list the playlist entries are built from. -/
def resolveRows (db : DB) (device_id : String) (asOf : AsOf) : List (Rule × Media) :=
  (fetchRows db device_id asOf.date).filter (rowKept asOf)

/-- One element of the JSON playlist (`url` is built from the filename
and the external server address, which we keep abstract). -/
structure PlaylistEntry where
  id : Nat
  filename : String
  file_type : String
  display_duration : Option Nat
  play_order : Option Int
deriving DecidableEq, Repr

/-- Build a playlist entry from a kept row. -/
def toEntry (rm : Rule × Media) : PlaylistEntry :=
  { id := rm.1.media_id, filename := rm.2.filename, file_type := rm.2.file_type,
    display_duration := rm.1.display_duration, play_order := rm.1.play_order }

/-- `GET /api/playlist/<device_id>` (`get_playlist`): device check-in,
then the filtered, ordered playlist. -/
def getPlaylist (db : DB) (device_id addr : String) (asOf : AsOf) (now : Nat) :
    DB × List PlaylistEntry :=
  let db1 := deviceCheckin db device_id addr now
  (db1, (resolveRows db1 device_id asOf).map toEntry)

/-! ### Spec-side definitions

These definitions follow the wording of the specification and of the
claims, to be compared against the code-derived definitions above. -/

/-- Spec wording: the current day is Mon-Fri. -/
def isMonToFri : Weekday → Bool
  | .sat | .sun => false
  | _ => true

/-- Spec wording: the current day is Sat or Sun. -/
def isSatOrSun : Weekday → Bool
  | .sat | .sun => true
  | _ => false

/-- The day predicate in the words of claim C1: the weekday set contains
`all`, or the literal current weekday token, or `weekdays` on Mon-Fri,
or `weekends` on Sat/Sun; an absent or empty weekday set behaves as
`all`. -/
def specDayPredicate (days : Option (List String)) (w : Weekday) : Bool :=
  match days with
  | none => true
  | some [] => true
  | some (d0 :: ds) =>
      (d0 :: ds).contains "all" || (d0 :: ds).contains w.token ||
        (isMonToFri w && (d0 :: ds).contains "weekdays") ||
        (isSatOrSun w && (d0 :: ds).contains "weekends")

/-- The time predicate in the words of claim C1: true when no start/end
time is configured, otherwise the inclusive containment
`start_time <= t <= end_time` (so a window with start > end never
matches). -/
def specTimePredicate (st et : Option Nat) (t : Nat) : Bool :=
  match st, et with
  | none, none => true
  | some s, some e => decide (s ≤ t) && decide (t ≤ e)
  | _, _ => false

/-- The data-model invariants of the spec about a stored rule: the
weekday value is never the explicit empty list, and the two time bounds
are both present or both absent. -/
def wellFormedRule (r : Rule) : Bool :=
  !(r.days_of_week == some ([] : List String)) &&
    (r.start_time.isSome == r.end_time.isSome)

/-- The Prop-level order the resolver's rows are sorted by:
`(play_order ascending, creation_time ascending)` with an absent
play_order lowest. -/
def rowOrdered (a b : Rule × Media) : Prop :=
  rowLE (sortKey a.1) (sortKey b.1) = true

/-- Claim C4's wording for the play order of a new assignment, amended
to range over the device's active rules only: one more than their
largest play_order, i.e. 1 when the device has no active rule carrying a
play_order. -/
def specNextActivePlayOrder (rules : List Rule) (device_id : String) : Int :=
  match ((rules.filter (fun r => r.device_id == device_id && r.is_active)).filterMap
      (fun r => r.play_order)) with
  | [] => 1
  | v :: vs => vs.foldl max v + 1

/-- Claim C4's original wording for the play order of a new assignment:
one more than the largest play_order over all of the device's rules,
regardless of their liveness flag. -/
def specNextPlayOrderAllRules (rules : List Rule) (device_id : String) : Int :=
  match ((rules.filter (fun r => r.device_id == device_id)).filterMap
      (fun r => r.play_order)) with
  | [] => 1
  | v :: vs => vs.foldl max v + 1

/-- The at-most-one-active-rule-per-pair invariant of claim C3. -/
def atMostOneActive (rules : List Rule) : Prop :=
  ∀ (d : String) (m : Nat),
    ((rules.filter (fun r => r.device_id == d && r.media_id == m && r.is_active)).length ≤ 1)

/-! ### Concrete fixtures used by counterexamples and witnesses -/

/-- Fixture media record. -/
def mA : Media :=
  { id := 1, filename := "a.png", original_name := "a.png", file_type := "image",
    file_size := 0, created_at := 0, video_duration := none }

/-- C1 counterexample rule: only a start time (09:00) configured, no end
time. -/
def c1Rule : Rule :=
  { id := 1, device_id := "d1", media_id := 1, start_date := none, end_date := none,
    days_of_week := none, display_duration := some 10, video_duration := none,
    start_time := some 540, end_time := none, is_active := true,
    play_order := some 1, created_at := 1 }

/-- C1 counterexample store. -/
def c1DB : DB :=
  { media := [mA], devices := [], rules := [c1Rule], analytics := [],
    nextRuleId := 2, lastContentUpdate := 0 }

/-- C1 counterexample instant: a Monday at 05:00. -/
def c1AsOf : AsOf := { date := 100, weekday := .mon, time := 300 }

/-- C1 witness rule: weekdays only, 09:00-17:00 window. -/
def c1wRule : Rule :=
  { id := 1, device_id := "d1", media_id := 1, start_date := none, end_date := none,
    days_of_week := some ["weekdays"], display_duration := some 10, video_duration := none,
    start_time := some 540, end_time := some 1020, is_active := true,
    play_order := some 1, created_at := 1 }

/-- C1 witness store. -/
def c1wDB : DB :=
  { media := [mA], devices := [], rules := [c1wRule], analytics := [],
    nextRuleId := 2, lastContentUpdate := 0 }

/-- Second fixture media record. -/
def mB : Media :=
  { id := 2, filename := "b.mp4", original_name := "b.mp4", file_type := "video",
    file_size := 0, created_at := 0, video_duration := some 30 }

/-- C2 witness rule 1. -/
def c2Rule1 : Rule :=
  { id := 1, device_id := "d1", media_id := 1, start_date := none, end_date := none,
    days_of_week := none, display_duration := some 10, video_duration := none,
    start_time := none, end_time := none, is_active := true,
    play_order := some 1, created_at := 1 }

/-- C2 witness rule 2. -/
def c2Rule2 : Rule :=
  { id := 2, device_id := "d1", media_id := 2, start_date := none, end_date := none,
    days_of_week := none, display_duration := some 10, video_duration := none,
    start_time := none, end_time := none, is_active := true,
    play_order := some 2, created_at := 2 }

/-- C2 witness store. -/
def c2DB : DB :=
  { media := [mA, mB], devices := [], rules := [c2Rule1, c2Rule2], analytics := [],
    nextRuleId := 3, lastContentUpdate := 0 }

/-- A store with one media record and nothing else. -/
def baseDB : DB :=
  { media := [mA], devices := [], rules := [], analytics := [],
    nextRuleId := 1, lastContentUpdate := 0 }

/-- C3 scenario, step 1: `assign("d1", 1)` while the pair is absent. -/
def c3State1 : DB := (assignContent baseDB "d1" 1 (some 10) 1).1

/-- C3 scenario, step 2: `toggle(1, false)` deactivates the rule. -/
def c3State2 : DB := (toggleMediaStatus c3State1 1 false 2).1

/-- C3 scenario, step 3: `assign("d1", 1)` again — the duplicate check
only looks at active rules, so a second row is inserted. -/
def c3State3 : DB := (assignContent c3State2 "d1" 1 (some 10) 3).1

/-- C3 scenario, step 4: `toggle(1, true)` reactivates every rule of
media 1, including the old row. -/
def c3State4 : DB := (toggleMediaStatus c3State3 1 true 4).1

/-- C4 counterexample rule: the device's only existing rule is inactive,
with play_order 5. -/
def c4Rule : Rule :=
  { id := 1, device_id := "d1", media_id := 2, start_date := none, end_date := none,
    days_of_week := none, display_duration := some 10, video_duration := none,
    start_time := none, end_time := none, is_active := false,
    play_order := some 5, created_at := 1 }

/-- C4 counterexample store. -/
def c4DB : DB :=
  { media := [mA, mB], devices := [], rules := [c4Rule], analytics := [],
    nextRuleId := 2, lastContentUpdate := 0 }

/-- Fixture devices for the bulk-assignment witness. -/
def devA : Device :=
  { device_id := "da", device_name := "TV-da", custom_name := none, location := none,
    last_checkin := some 1, is_active := true, ip_address := some "10.0.0.1",
    app_version := "1.0", created_at := 0 }

/-- Second fixture device. -/
def devB : Device :=
  { device_id := "db", device_name := "TV-db", custom_name := none, location := none,
    last_checkin := some 1, is_active := true, ip_address := some "10.0.0.2",
    app_version := "1.0", created_at := 0 }

/-- C5 witness rule held by `da`. -/
def c5HeldRule : Rule :=
  { id := 1, device_id := "da", media_id := 1, start_date := none, end_date := none,
    days_of_week := none, display_duration := some 10, video_duration := none,
    start_time := none, end_time := none, is_active := true,
    play_order := some 1, created_at := 1 }

/-- C5 witness store: two active devices, of which `da` already holds an
active assignment for media 1. -/
def c5DB2 : DB :=
  { media := [mA], devices := [devA, devB], rules := [c5HeldRule], analytics := [],
    nextRuleId := 2, lastContentUpdate := 0 }

/-- C6 store: one rule with display_duration 10 and a nonzero
last-content-update value. -/
def c6DB : DB :=
  { media := [mA], devices := [], rules := [c2Rule1], analytics := [],
    nextRuleId := 2, lastContentUpdate := 100 }

/-- C7 analytics record referencing media 1. -/
def c7Analytics : Analytics := { id := 1, device_id := "d1", media_id := some 1 }

/-- C7 store: media 1 with a rule and an analytics record. -/
def c7DB : DB :=
  { media := [mA, mB], devices := [], rules := [c2Rule1], analytics := [c7Analytics],
    nextRuleId := 2, lastContentUpdate := 0 }

/-- An entirely empty store. -/
def emptyDB : DB :=
  { media := [], devices := [], rules := [], analytics := [],
    nextRuleId := 1, lastContentUpdate := 0 }

/-- Fixture device with administrator-set metadata. -/
def devNamed : Device :=
  { device_id := "dev00001", device_name := "TV-dev00001", custom_name := some "Lobby",
    location := some "HQ", last_checkin := some 1, is_active := false,
    ip_address := some "10.0.0.9", app_version := "1.0", created_at := 0 }

/-- C9/C10 witness store holding `devNamed`. -/
def c9DB : DB :=
  { media := [], devices := [devNamed], rules := [], analytics := [],
    nextRuleId := 1, lastContentUpdate := 0 }

/-! ### Order-by lemmas -/

lemma rowLE_refl (a : Option Int × Nat) : rowLE a a = true := by
  rcases a with ⟨p, c⟩
  cases p <;> simp [rowLE]

lemma rowLE_total (a b : Option Int × Nat) : rowLE a b = true ∨ rowLE b a = true := by
  rcases a with ⟨p, c⟩
  rcases b with ⟨q, d⟩
  cases p <;> cases q <;> simp [rowLE] <;> omega

lemma rowLE_trans {a b c : Option Int × Nat} (h1 : rowLE a b = true) (h2 : rowLE b c = true) :
    rowLE a c = true := by
  rcases a with ⟨p, x⟩
  rcases b with ⟨q, y⟩
  rcases c with ⟨r, z⟩
  cases p <;> cases q <;> cases r <;> simp [rowLE] at h1 h2 ⊢ <;> omega

lemma mem_insertRow (x z : Rule × Media) (l : List (Rule × Media)) :
    z ∈ insertRow x l ↔ z = x ∨ z ∈ l := by
  induction l with
  | nil => simp [insertRow]
  | cons y ys ih =>
    by_cases h : rowLE (sortKey y.1) (sortKey x.1) = true
    · simp only [insertRow, if_pos h, List.mem_cons, ih]
      tauto
    · simp only [insertRow, if_neg h, List.mem_cons]

lemma pairwise_insertRow (x : Rule × Media) {l : List (Rule × Media)}
    (h : l.Pairwise rowOrdered) : (insertRow x l).Pairwise rowOrdered := by
  induction l with
  | nil => simp [insertRow]
  | cons y ys ih =>
    rcases List.pairwise_cons.mp h with ⟨hy, hys⟩
    by_cases hc : rowLE (sortKey y.1) (sortKey x.1) = true
    · simp only [insertRow, if_pos hc]
      refine List.pairwise_cons.mpr ⟨?_, ih hys⟩
      intro z hz
      rcases (mem_insertRow x z ys).mp hz with rfl | hz'
      · exact hc
      · exact hy z hz'
    · simp only [insertRow, if_neg hc]
      refine List.pairwise_cons.mpr ⟨?_, h⟩
      intro z hz
      have hxy : rowOrdered x y := by
        rcases rowLE_total (sortKey x.1) (sortKey y.1) with h1 | h2
        · exact h1
        · exact absurd h2 hc
      rcases List.mem_cons.mp hz with rfl | hz'
      · exact hxy
      · exact rowLE_trans hxy (hy z hz')

lemma pairwise_sortRows (l : List (Rule × Media)) : (sortRows l).Pairwise rowOrdered := by
  induction l with
  | nil => simp [sortRows]
  | cons x xs ih => exact pairwise_insertRow x ih

lemma mem_sortRows (z : Rule × Media) (l : List (Rule × Media)) :
    z ∈ sortRows l ↔ z ∈ l := by
  induction l with
  | nil => simp [sortRows]
  | cons x xs ih => simp [sortRows, mem_insertRow, ih]

/-- The resolver's row list is sorted by `(play_order, created_at)`. -/
lemma resolveRows_pairwise (db : DB) (device_id : String) (asOf : AsOf) :
    (resolveRows db device_id asOf).Pairwise rowOrdered :=
  List.Pairwise.sublist (List.filter_sublist _) (pairwise_sortRows _)

/-- In a sorted list, an element strictly below another in the key order
occurs at a strictly earlier position. -/
lemma sorted_positions {l : List (Rule × Media)} {a b : Rule × Media}
    (hp : l.Pairwise rowOrdered) (ha : a ∈ l) (hb : b ∈ l)
    (hba : rowLE (sortKey b.1) (sortKey a.1) = false) :
    ∃ i j : Fin l.length, i < j ∧ l.get i = a ∧ l.get j = b := by
  rcases List.mem_iff_get.mp ha with ⟨i, hi⟩
  rcases List.mem_iff_get.mp hb with ⟨j, hj⟩
  rcases lt_trichotomy i j with h | h | h
  · exact ⟨i, j, h, hi, hj⟩
  · subst h
    rw [hi] at hj
    subst hj
    rw [rowLE_refl] at hba
    cases hba
  · have hrel := (List.pairwise_iff_get.mp hp) j i h
    rw [hi, hj] at hrel
    rw [rowOrdered] at hrel
    rw [hrel] at hba
    cases hba

/-! ### Day and time predicate bridge lemmas -/

lemma weekdayList_contains (w : Weekday) :
    (["mon", "tue", "wed", "thu", "fri"].contains w.token) = isMonToFri w := by
  cases w <;> rfl

lemma weekendList_contains (w : Weekday) :
    (["sat", "sun"].contains w.token) = isSatOrSun w := by
  cases w <;> rfl

lemma dayMatches_eq_spec (days : Option (List String)) (w : Weekday)
    (h : days ≠ some ([] : List String)) :
    dayMatches days w.token = specDayPredicate days w := by
  match days with
  | none => rfl
  | some [] => exact absurd rfl h
  | some (d0 :: ds) =>
    show dayMatchesList (d0 :: ds) w.token = _
    unfold dayMatchesList specDayPredicate
    rw [weekdayList_contains w, weekendList_contains w]

lemma timeMatches_eq_spec (st et : Option Nat) (t : Nat) (h : st.isSome = et.isSome) :
    timeMatches st et t = specTimePredicate st et t := by
  match st, et with
  | none, none => rfl
  | some s, some e => rfl
  | none, some e => simp at h
  | some s, none => simp at h

/-! ### Claim C1 -/

/-- Claim C1, counterexample: the rule `c1Rule` has only `start_time`
configured (`end_time` is NULL), so on a Monday at 05:00 `get_playlist`
skips the time filter entirely and keeps the rule, although the claim's
time predicate (`no start/end time configured, or start <= t <= end`) is
false for it.  The rule is returned by the date-bounded active-only
fetch, appears in the playlist, yet the claimed right-hand side of the
iff does not hold. -/
theorem c1_counterexample :
    (c1Rule, mA) ∈ fetchRows c1DB "d1" c1AsOf.date ∧
    (c1Rule, mA) ∈ resolveRows c1DB "d1" c1AsOf ∧
    specDayPredicate c1Rule.days_of_week c1AsOf.weekday = true ∧
    specTimePredicate c1Rule.start_time c1Rule.end_time c1AsOf.time = false := by
  decide

/-- Claim C1 (amended): for every rule returned by the date-bounded,
active-only fetch whose stored weekday set is not the explicit empty
list and whose start/end times are both configured or both absent, the
rule appears in the resulting playlist iff the day predicate and the
time predicate of the claim hold.  (The code deviates from the claim on
the excluded rules: a stored empty weekday list matches no day rather
than behaving as `all`, and a rule with exactly one time bound
configured always passes the time filter.) -/
theorem c1_fetch_membership (db : DB) (device_id : String) (asOf : AsOf) (rm : Rule × Media)
    (hmem : rm ∈ fetchRows db device_id asOf.date)
    (hwf : wellFormedRule rm.1 = true) :
    (rm ∈ resolveRows db device_id asOf ↔
      (specDayPredicate rm.1.days_of_week asOf.weekday = true ∧
       specTimePredicate rm.1.start_time rm.1.end_time asOf.time = true)) := by
  rw [wellFormedRule, Bool.and_eq_true] at hwf
  have hd : rm.1.days_of_week ≠ some ([] : List String) := by
    intro hcontra
    rw [hcontra] at hwf
    simp at hwf
  have ht : rm.1.start_time.isSome = rm.1.end_time.isSome := by
    have := hwf.2
    simpa using this
  have hkey : (rowKept asOf rm = true) ↔
      (specDayPredicate rm.1.days_of_week asOf.weekday = true ∧
       specTimePredicate rm.1.start_time rm.1.end_time asOf.time = true) := by
    unfold rowKept
    rw [Bool.and_eq_true, dayMatches_eq_spec _ _ hd, timeMatches_eq_spec _ _ _ ht]
  unfold resolveRows
  rw [List.mem_filter]
  simp only [hmem, true_and]
  exact hkey

/-- Witness for the amended claim C1 at a concrete input: a weekdays-only
09:00-17:00 rule resolved on a Monday at 05:00. -/
theorem c1_fetch_membership_witness :
    ((c1wRule, mA) ∈ resolveRows c1wDB "d1" c1AsOf ↔
      (specDayPredicate c1wRule.days_of_week c1AsOf.weekday = true ∧
       specTimePredicate c1wRule.start_time c1wRule.end_time c1AsOf.time = true)) :=
  c1_fetch_membership c1wDB "d1" c1AsOf (c1wRule, mA) (by decide) (by decide)

/-! ### Claim C2 -/

/-- Claim C2: the playlist rows are ordered by `(play_order ascending,
creation_time ascending)` with an absent play_order sorting lowest (the
`ORDER BY dc.play_order, dc.created_at` of the playlist query, under
SQL's NULLS-first ascending order); and after
`reorder(device, [(r1, 3), (r2, 1)])`, resolving lists r2 before r1
whenever both rules match the temporal predicates. -/
theorem c2_playlist_order (db : DB) (d : String) (asOf : AsOf) (now : Nat)
    (r1 r2 : Rule) (m1 m2 : Media)
    (h1 : r1 ∈ db.rules) (h2 : r2 ∈ db.rules) (hne : r1.id ≠ r2.id)
    (hd1 : r1.device_id = d) (hd2 : r2.device_id = d)
    (ha1 : r1.is_active = true) (ha2 : r2.is_active = true)
    (hda1 : dateOk r1 asOf.date = true) (hda2 : dateOk r2 asOf.date = true)
    (hm1 : db.media.find? (fun m => m.id == r1.media_id) = some m1)
    (hm2 : db.media.find? (fun m => m.id == r2.media_id) = some m2)
    (hk1 : dayMatches r1.days_of_week asOf.weekday.token = true)
    (hk2 : dayMatches r2.days_of_week asOf.weekday.token = true)
    (ht1 : timeMatches r1.start_time r1.end_time asOf.time = true)
    (ht2 : timeMatches r2.start_time r2.end_time asOf.time = true) :
    (∀ (db0 : DB) (dev : String) (a : AsOf), (resolveRows db0 dev a).Pairwise rowOrdered) ∧
    (∃ i j :
        Fin ((resolveRows (reorderDeviceContent db d [(r1.id, some 3), (r2.id, some 1)] now).1
          d asOf).length),
      i < j ∧
      (resolveRows (reorderDeviceContent db d [(r1.id, some 3), (r2.id, some 1)] now).1
          d asOf).get i = ({ r2 with play_order := some 1 }, m2) ∧
      (resolveRows (reorderDeviceContent db d [(r1.id, some 3), (r2.id, some 1)] now).1
          d asOf).get j = ({ r1 with play_order := some 3 }, m1)) := by
  refine ⟨fun db0 dev a => resolveRows_pairwise db0 dev a, ?_⟩
  have hrules :
      (reorderDeviceContent db d [(r1.id, some 3), (r2.id, some 1)] now).1.rules =
      (db.rules.map (fun r =>
        if r.id == r1.id && r.device_id == d then { r with play_order := some 3 } else r)).map
       (fun r =>
        if r.id == r2.id && r.device_id == d then { r with play_order := some 1 } else r) := rfl
  have hmem1 :
      ({ r1 with play_order := some 3 } : Rule) ∈
        (reorderDeviceContent db d [(r1.id, some 3), (r2.id, some 1)] now).1.rules := by
    rw [hrules, List.map_map]
    refine List.mem_map.mpr ⟨r1, h1, ?_⟩
    simp [Function.comp, hd1, hne]
  have hmem2 :
      ({ r2 with play_order := some 1 } : Rule) ∈
        (reorderDeviceContent db d [(r1.id, some 3), (r2.id, some 1)] now).1.rules := by
    rw [hrules, List.map_map]
    refine List.mem_map.mpr ⟨r2, h2, ?_⟩
    simp [Function.comp, hd2, Ne.symm hne]
  have hmedia :
      (reorderDeviceContent db d [(r1.id, some 3), (r2.id, some 1)] now).1.media =
        db.media := rfl
  have hres1 :
      (({ r1 with play_order := some 3 } : Rule), m1) ∈
        resolveRows (reorderDeviceContent db d [(r1.id, some 3), (r2.id, some 1)] now).1
          d asOf := by
    unfold resolveRows
    rw [List.mem_filter]
    refine ⟨?_, ?_⟩
    · unfold fetchRows
      rw [mem_sortRows]
      unfold joinMedia
      rw [List.mem_filterMap]
      refine ⟨{ r1 with play_order := some 3 }, ?_, ?_⟩
      · rw [List.mem_filter]
        refine ⟨hmem1, ?_⟩
        simp only [Bool.and_eq_true]
        refine ⟨⟨?_, ?_⟩, ?_⟩
        · exact beq_iff_eq.mpr hd1
        · exact ha1
        · exact hda1
      · rw [hmedia]
        have hfind :
            (db.media.find? fun m =>
              m.id == ({ r1 with play_order := some 3 } : Rule).media_id) = some m1 := hm1
        rw [hfind]
        rfl
    · unfold rowKept
      rw [Bool.and_eq_true]
      exact ⟨hk1, ht1⟩
  have hres2 :
      (({ r2 with play_order := some 1 } : Rule), m2) ∈
        resolveRows (reorderDeviceContent db d [(r1.id, some 3), (r2.id, some 1)] now).1
          d asOf := by
    unfold resolveRows
    rw [List.mem_filter]
    refine ⟨?_, ?_⟩
    · unfold fetchRows
      rw [mem_sortRows]
      unfold joinMedia
      rw [List.mem_filterMap]
      refine ⟨{ r2 with play_order := some 1 }, ?_, ?_⟩
      · rw [List.mem_filter]
        refine ⟨hmem2, ?_⟩
        simp only [Bool.and_eq_true]
        refine ⟨⟨?_, ?_⟩, ?_⟩
        · exact beq_iff_eq.mpr hd2
        · exact ha2
        · exact hda2
      · rw [hmedia]
        have hfind :
            (db.media.find? fun m =>
              m.id == ({ r2 with play_order := some 1 } : Rule).media_id) = some m2 := hm2
        rw [hfind]
        rfl
    · unfold rowKept
      rw [Bool.and_eq_true]
      exact ⟨hk2, ht2⟩
  have hkeycmp :
      rowLE (sortKey (({ r1 with play_order := some 3 } : Rule), m1).1)
        (sortKey (({ r2 with play_order := some 1 } : Rule), m2).1) = false := by
    simp [sortKey, rowLE]
  exact sorted_positions (resolveRows_pairwise _ _ _) hres2 hres1 hkeycmp

/-- Witness for claim C2 at a concrete input: both rules match, and after
reordering to [(r1, 3), (r2, 1)] the resolver lists r2 before r1. -/
theorem c2_playlist_order_witness :
    (resolveRows c2DB "d1" c1AsOf).Pairwise rowOrdered ∧
    (∃ i j :
        Fin ((resolveRows
          (reorderDeviceContent c2DB "d1" [(c2Rule1.id, some 3), (c2Rule2.id, some 1)] 9).1
          "d1" c1AsOf).length),
      i < j ∧
      (resolveRows
          (reorderDeviceContent c2DB "d1" [(c2Rule1.id, some 3), (c2Rule2.id, some 1)] 9).1
          "d1" c1AsOf).get i = ({ c2Rule2 with play_order := some 1 }, mB) ∧
      (resolveRows
          (reorderDeviceContent c2DB "d1" [(c2Rule1.id, some 3), (c2Rule2.id, some 1)] 9).1
          "d1" c1AsOf).get j = ({ c2Rule1 with play_order := some 3 }, mA)) := by
  have h := c2_playlist_order c2DB "d1" c1AsOf 9 c2Rule1 c2Rule2 mA mB
    (by decide) (by decide) (by decide) (by decide) (by decide) (by decide) (by decide)
    (by decide) (by decide) (by decide) (by decide) (by decide) (by decide)
    (by decide) (by decide)
  exact ⟨h.1 c2DB "d1" c1AsOf, h.2⟩

/-! ### Claim C3 -/

/-- Claim C3, counterexample: assign (device d1, media 1), deactivate via
toggle, assign again (the duplicate check looks only at active rows, so
a second row is inserted), then `toggle(1, true)`.  The final reachable
state holds TWO active rules for the pair (d1, 1), so uniqueness of
active assignments is not an invariant preserved by every operation —
`toggle(media, true)` after an assignment made while the pair was
inactive creates the second active rule. -/
theorem c3_counterexample :
    (assignContent baseDB "d1" 1 (some 10) 1).2 = Resp.success ∧
    (assignContent c3State2 "d1" 1 (some 10) 3).2 = Resp.success ∧
    ((c3State4.rules.filter
      (fun r => r.device_id == "d1" && r.media_id == 1 && r.is_active)).length = 2) := by
  decide

/-- Claim C3 (amended): `assign` on a state that already holds an active
(device, media) pair returns the DuplicateAssignment error and leaves
the store unchanged, and `assign` itself preserves the
at-most-one-active-rule-per-pair invariant; but the invariant is not
preserved by every operation: `toggle(media_id, true)` after an
assignment made while the pair was inactive reactivates the older rule
as well, yielding two active rules for the same pair. -/
theorem c3_assign_uniqueness (db : DB) (d : String) (m : Nat) (dur : Option Nat) (now : Nat)
    (hd : d ≠ "") (hm : m ≠ 0) :
    (hasActivePair db.rules d m = true →
      assignContent db d m dur now = (db, Resp.duplicateError)) ∧
    (atMostOneActive db.rules → atMostOneActive (assignContent db d m dur now).1.rules) := by
  constructor
  · intro h
    unfold assignContent
    rw [if_neg (by simp [hd, hm]), if_pos h]
  · intro hinv
    unfold assignContent
    by_cases hv : (d == "" || m == 0) = true
    · rw [if_pos hv]; exact hinv
    · rw [if_neg hv]
      by_cases hdup : hasActivePair db.rules d m = true
      · rw [if_pos hdup]; exact hinv
      · rw [if_neg hdup]
        intro d0 m0
        rw [List.filter_append]
        by_cases hpair : d0 = d ∧ m0 = m
        · rcases hpair with ⟨rfl, rfl⟩
          have hnil : db.rules.filter
              (fun r => r.device_id == d0 && r.media_id == m0 && r.is_active) = [] := by
            rw [List.filter_eq_nil_iff]
            intro r hr hc
            exact hdup (List.any_eq_true.mpr ⟨r, hr, hc⟩)
          rw [hnil, List.nil_append, List.filter_cons]
          split
          · simp
          · simp
        · have hf : ((freshRule db.nextRuleId d m dur (nextPlayOrder db.rules d) now).device_id
              == d0 &&
              (freshRule db.nextRuleId d m dur (nextPlayOrder db.rules d) now).media_id == m0 &&
              (freshRule db.nextRuleId d m dur (nextPlayOrder db.rules d) now).is_active)
              = false := by
            simp only [freshRule]
            cases h0 : (d == d0) with
            | false => simp [h0]
            | true =>
              have hd0 : d = d0 := beq_iff_eq.mp h0
              have hm0 : (m == m0) = false := by
                rw [beq_eq_false_iff_ne]
                intro hmm
                exact hpair ⟨hd0.symm, hmm.symm⟩
              simp [h0, hm0]
          have hone : List.filter
              (fun r => r.device_id == d0 && r.media_id == m0 && r.is_active)
              [freshRule db.nextRuleId d m dur (nextPlayOrder db.rules d) now] = [] := by
            rw [List.filter_cons]
            simp [hf]
          rw [hone, List.append_nil]
          exact hinv d0 m0

/-- Witness for the amended claim C3 at concrete inputs: a duplicate
assign on the one-active-rule state is rejected unchanged, and assigning
on the empty store preserves the invariant. -/
theorem c3_assign_uniqueness_witness :
    (assignContent c3State1 "d1" 1 (some 10) 5 = (c3State1, Resp.duplicateError)) ∧
    atMostOneActive (assignContent emptyDB "d1" 1 (some 10) 5).1.rules :=
  ⟨(c3_assign_uniqueness c3State1 "d1" 1 (some 10) 5 (by decide) (by decide)).1 (by decide),
   (c3_assign_uniqueness emptyDB "d1" 1 (some 10) 5 (by decide) (by decide)).2
     (fun d0 m0 => by simp [emptyDB])⟩

/-! ### Claim C4 -/

/-- The code's next-play-order computation agrees with the amended spec
wording (max over the device's active rules, one more, 1 when none). -/
lemma nextPlayOrder_eq_spec (rules : List Rule) (d : String) :
    nextPlayOrder rules d = specNextActivePlayOrder rules d := by
  unfold nextPlayOrder specNextActivePlayOrder
  cases ((rules.filter (fun r => r.device_id == d && r.is_active)).filterMap
      (fun r => r.play_order)) with
  | nil => rfl
  | cons v vs => rfl

/-- Claim C4, counterexample: device d1 holds a single INACTIVE rule with
play_order 5.  The claim says the new assignment gets
max(play_order over the device's existing rules, regardless of
liveness) + 1 = 6; the code computes the max over ACTIVE rules only
(`WHERE device_id = ? AND is_active = 1`), so the inserted rule gets
play_order 1, not 6. -/
theorem c4_counterexample :
    ((assignContent c4DB "d1" 1 (some 10) 7).1.rules.map (fun r => r.play_order) =
      [some 5, some 1]) ∧
    specNextPlayOrderAllRules c4DB.rules "d1" = 6 ∧
    ¬ (some (1 : Int) = some (specNextPlayOrderAllRules c4DB.rules "d1")) := by
  decide

/-- Claim C4 (amended): a successful `assign(device_id, media_id)`
appends a rule whose play_order is max(play_order over that device's
ACTIVE rules) + 1 (1 when the device has no active rule carrying a
play_order); rules whose liveness flag is false are ignored by the
computation. -/
theorem c4_assign_play_order (db : DB) (d : String) (m : Nat) (dur : Option Nat) (now : Nat)
    (hd : d ≠ "") (hm : m ≠ 0) (hdup : hasActivePair db.rules d m = false) :
    (assignContent db d m dur now).2 = Resp.success ∧
    (assignContent db d m dur now).1.rules.map (fun r => r.play_order) =
      db.rules.map (fun r => r.play_order) ++ [some (specNextActivePlayOrder db.rules d)] := by
  unfold assignContent
  rw [if_neg (by simp [hd, hm]), if_neg (by simp [hdup])]
  refine ⟨rfl, ?_⟩
  rw [List.map_append, nextPlayOrder_eq_spec]
  rfl

/-- Witness for the amended claim C4 at a concrete input: device d1 has
one active rule with play_order 1, so the new assignment gets 2. -/
theorem c4_assign_play_order_witness :
    (assignContent c2DB "d1" 3 (some 10) 7).2 = Resp.success ∧
    (assignContent c2DB "d1" 3 (some 10) 7).1.rules.map (fun r => r.play_order) =
      c2DB.rules.map (fun r => r.play_order) ++ [some (specNextActivePlayOrder c2DB.rules "d1")] :=
  c4_assign_play_order c2DB "d1" 3 (some 10) 7 (by decide) (by decide) (by decide)

/-! ### Claim C5 -/

/-- Appending a rule for a different device does not change the
duplicate-assignment probe. -/
lemma hasActivePair_append_single (rules : List Rule) (r : Rule) (d : String) (m : Nat)
    (h : r.device_id ≠ d) :
    hasActivePair (rules ++ [r]) d m = hasActivePair rules d m := by
  unfold hasActivePair
  rw [List.any_append]
  have hone : [r].any (fun r0 => r0.device_id == d && r0.media_id == m && r0.is_active)
      = false := by
    simp [h]
  rw [hone, Bool.or_false]

/-- Unrolling of the device loop of `assign_all_devices`: over a
duplicate-free device list, the loop appends one fresh rule per device
that does not already hold the active pair, and counts exactly those. -/
lemma assignAll_fold (m : Nat) (dur : Option Nat) (now : Nat) :
    ∀ (ds : List String) (db0 : DB) (cnt0 : Nat), ds.Nodup →
      ∃ ext : List Rule,
        (ds.foldl (assignAllStep m dur now) (db0, cnt0)).1.rules = db0.rules ++ ext ∧
        (∀ r ∈ ext, r.device_id ∈ ds) ∧
        ext.length = (ds.filter (fun d0 => !(hasActivePair db0.rules d0 m))).length ∧
        (ds.foldl (assignAllStep m dur now) (db0, cnt0)).2 =
          cnt0 + (ds.filter (fun d0 => !(hasActivePair db0.rules d0 m))).length := by
  intro ds
  induction ds with
  | nil =>
    intro db0 cnt0 _
    exact ⟨[], by simp, by simp, by simp, by simp⟩
  | cons d ds ih =>
    intro db0 cnt0 hnd
    have hd_not : d ∉ ds := (List.nodup_cons.mp hnd).1
    have hnd2 : ds.Nodup := (List.nodup_cons.mp hnd).2
    rw [List.foldl_cons]
    by_cases hdup : hasActivePair db0.rules d m = true
    · have hstep : assignAllStep m dur now (db0, cnt0) d = (db0, cnt0) := by
        unfold assignAllStep
        rw [if_pos hdup]
      rw [hstep]
      obtain ⟨ext, he1, he2, he3, he4⟩ := ih db0 cnt0 hnd2
      have hfilter : (d :: ds).filter (fun d0 => !(hasActivePair db0.rules d0 m)) =
          ds.filter (fun d0 => !(hasActivePair db0.rules d0 m)) := by
        rw [List.filter_cons]
        simp [hdup]
      exact ⟨ext, he1, fun r hr => List.mem_cons_of_mem _ (he2 r hr),
        by rw [hfilter]; exact he3, by rw [hfilter]; exact he4⟩
    · have hdupf : hasActivePair db0.rules d m = false := by
        cases hx : hasActivePair db0.rules d m
        · rfl
        · exact absurd hx hdup
      have hstep : assignAllStep m dur now (db0, cnt0) d =
          ({ db0 with
              rules := db0.rules ++
                [freshRule db0.nextRuleId d m dur (nextPlayOrder db0.rules d) now],
              nextRuleId := db0.nextRuleId + 1 }, cnt0 + 1) := by
        unfold assignAllStep
        rw [if_neg hdup]
      rw [hstep]
      obtain ⟨ext, he1, he2, he3, he4⟩ :=
        ih { db0 with
              rules := db0.rules ++
                [freshRule db0.nextRuleId d m dur (nextPlayOrder db0.rules d) now],
              nextRuleId := db0.nextRuleId + 1 } (cnt0 + 1) hnd2
      have he1r : (ds.foldl (assignAllStep m dur now)
          ({ db0 with
              rules := db0.rules ++
                [freshRule db0.nextRuleId d m dur (nextPlayOrder db0.rules d) now],
              nextRuleId := db0.nextRuleId + 1 }, cnt0 + 1)).1.rules =
          (db0.rules ++
            [freshRule db0.nextRuleId d m dur (nextPlayOrder db0.rules d) now]) ++ ext := he1
      have he3r : ext.length = (ds.filter (fun d0 => !(hasActivePair (db0.rules ++
          [freshRule db0.nextRuleId d m dur (nextPlayOrder db0.rules d) now]) d0 m))).length :=
        he3
      have he4r : (ds.foldl (assignAllStep m dur now)
          ({ db0 with
              rules := db0.rules ++
                [freshRule db0.nextRuleId d m dur (nextPlayOrder db0.rules d) now],
              nextRuleId := db0.nextRuleId + 1 }, cnt0 + 1)).2 =
          (cnt0 + 1) + (ds.filter (fun d0 => !(hasActivePair (db0.rules ++
            [freshRule db0.nextRuleId d m dur (nextPlayOrder db0.rules d) now]) d0 m))).length :=
        he4
      have hsame : ds.filter (fun d0 => !(hasActivePair (db0.rules ++
            [freshRule db0.nextRuleId d m dur (nextPlayOrder db0.rules d) now]) d0 m)) =
          ds.filter (fun d0 => !(hasActivePair db0.rules d0 m)) := by
        apply List.filter_congr
        intro d0 hd0
        have hne0 : (freshRule db0.nextRuleId d m dur
            (nextPlayOrder db0.rules d) now).device_id ≠ d0 := by
          intro hc
          apply hd_not
          have hdd : d = d0 := hc
          rw [hdd]
          exact hd0
        rw [hasActivePair_append_single _ _ _ _ hne0]
      have hfilter : (d :: ds).filter (fun d0 => !(hasActivePair db0.rules d0 m)) =
          d :: ds.filter (fun d0 => !(hasActivePair db0.rules d0 m)) := by
        rw [List.filter_cons]
        simp [hdupf]
      have hextlen : ext.length =
          (ds.filter (fun d0 => !(hasActivePair db0.rules d0 m))).length := by
        rw [he3r]
        exact congrArg List.length hsame
      refine ⟨freshRule db0.nextRuleId d m dur (nextPlayOrder db0.rules d) now :: ext,
        ?_, ?_, ?_, ?_⟩
      · rw [he1r, List.append_assoc]
        rfl
      · intro r hr
        rcases List.mem_cons.mp hr with rfl | hr2
        · exact List.mem_cons_self _ _
        · exact List.mem_cons_of_mem _ (he2 r hr2)
      · rw [hfilter, List.length_cons, List.length_cons, hextlen]
      · rw [he4r, congrArg List.length hsame, hfilter, List.length_cons]
        omega

/-- Claim C5: over N active devices of which k already hold the active
pair, `assignToAll` reports success (no error for the holders), returns
N − k, leaves every pre-existing rule row unchanged in place, and grows
the rule table by exactly the returned count. -/
theorem c5_assign_all (db : DB) (m : Nat) (dur : Option Nat) (now : Nat)
    (hm : m ≠ 0)
    (hnd : ((db.devices.filter (fun dv => dv.is_active)).map (fun dv => dv.device_id)).Nodup) :
    (assignAllDevices db m dur now).2.2 = Resp.success ∧
    (assignAllDevices db m dur now).2.1 =
      (db.devices.filter (fun dv => dv.is_active)).length -
        ((db.devices.filter (fun dv => dv.is_active)).filter
          (fun dv => hasActivePair db.rules dv.device_id m)).length ∧
    (assignAllDevices db m dur now).1.rules.take db.rules.length = db.rules ∧
    (assignAllDevices db m dur now).1.rules.length =
      db.rules.length + (assignAllDevices db m dur now).2.1 := by
  obtain ⟨ext, he1, he2, he3, he4⟩ := assignAll_fold m dur now
    ((db.devices.filter (fun dv => dv.is_active)).map (fun dv => dv.device_id)) db 0 hnd
  have hred1 : (assignAllDevices db m dur now).1.rules =
      (((db.devices.filter (fun dv => dv.is_active)).map (fun dv => dv.device_id)).foldl
        (assignAllStep m dur now) (db, 0)).1.rules := by
    unfold assignAllDevices
    rw [if_neg (by simp [hm])]
    rfl
  have hred2 : (assignAllDevices db m dur now).2.1 =
      (((db.devices.filter (fun dv => dv.is_active)).map (fun dv => dv.device_id)).foldl
        (assignAllStep m dur now) (db, 0)).2 := by
    unfold assignAllDevices
    rw [if_neg (by simp [hm])]
  have hsucc : (assignAllDevices db m dur now).2.2 = Resp.success := by
    unfold assignAllDevices
    rw [if_neg (by simp [hm])]
  have hN : ((db.devices.filter (fun dv => dv.is_active)).map (fun dv => dv.device_id)).length
      = (db.devices.filter (fun dv => dv.is_active)).length := List.length_map _ _
  have hk : (((db.devices.filter (fun dv => dv.is_active)).map
        (fun dv => dv.device_id)).filter (fun d0 => hasActivePair db.rules d0 m)).length =
      ((db.devices.filter (fun dv => dv.is_active)).filter
        (fun dv => hasActivePair db.rules dv.device_id m)).length := by
    rw [List.filter_map, List.length_map]
    rfl
  have h0 : ((db.devices.filter (fun dv => dv.is_active)).map
        (fun dv => dv.device_id)).length =
      (((db.devices.filter (fun dv => dv.is_active)).map
        (fun dv => dv.device_id)).filter (fun d0 => hasActivePair db.rules d0 m)).length +
      (((db.devices.filter (fun dv => dv.is_active)).map
        (fun dv => dv.device_id)).filter
          (fun d0 => !(hasActivePair db.rules d0 m))).length :=
    List.length_eq_length_filter_add _
  refine ⟨hsucc, ?_, ?_, ?_⟩
  · rw [hred2, he4]
    omega
  · rw [hred1, he1, List.take_left]
  · rw [hred1, he1, List.length_append, hred2, he4, he3]
    omega

/-- Witness for claim C5 at a concrete input: two active devices, one of
which (da) already holds the pair — one rule is created and 1 = 2 − 1 is
returned. -/
theorem c5_assign_all_witness :
    (assignAllDevices c5DB2 1 (some 10) 9).2.2 = Resp.success ∧
    (assignAllDevices c5DB2 1 (some 10) 9).2.1 =
      (c5DB2.devices.filter (fun dv => dv.is_active)).length -
        ((c5DB2.devices.filter (fun dv => dv.is_active)).filter
          (fun dv => hasActivePair c5DB2.rules dv.device_id 1)).length ∧
    (assignAllDevices c5DB2 1 (some 10) 9).1.rules.take c5DB2.rules.length = c5DB2.rules ∧
    (assignAllDevices c5DB2 1 (some 10) 9).1.rules.length =
      c5DB2.rules.length + (assignAllDevices c5DB2 1 (some 10) 9).2.1 :=
  c5_assign_all c5DB2 1 (some 10) 9 (by decide) (by decide)

/-! ### Claim C6 -/

/-- Claim C6 fails on the code: `update_device_content` (the
per-assignment display-duration update) commits its UPDATE without ever
calling `update_content_timestamp`, so the process-wide
last-content-change value read after the call equals the value read
before it.  The first conjunct shows this for every store and payload;
the remaining conjuncts evaluate the failing input (assignment 1,
duration 20 on a store whose timestamp is 100): the rule row is mutated,
the call reports success, and the timestamp still reads 100. -/
theorem c6_duration_update_no_timestamp :
    (∀ (db : DB) (aid : Nat) (dur : Option Nat),
      (updateDeviceContent db aid dur).1.lastContentUpdate = db.lastContentUpdate) ∧
    ((updateDeviceContent c6DB 1 (some 20)).1.rules.map (fun r => r.display_duration) =
      [some 20]) ∧
    (updateDeviceContent c6DB 1 (some 20)).2 = Resp.success ∧
    (updateDeviceContent c6DB 1 (some 20)).1.rules ≠ c6DB.rules ∧
    (updateDeviceContent c6DB 1 (some 20)).1.lastContentUpdate = 100 := by
  refine ⟨fun db aid dur => rfl, ?_, ?_, ?_, ?_⟩ <;> decide

/-! ### Claim C7 -/

/-- Claim C7, counterexample: deleting media 1 while the physical file
exists and its removal raises.  The cascade is committed (rules,
analytics and the media record are gone), but the raised error is caught
by the endpoint's catch-all handler, which answers 500 — the call does
NOT report success, contrary to the claim that file-deletion failure is
logged but not propagated. -/
theorem c7_counterexample :
    (deleteMedia c7DB 1 true true 5).2 = Resp.serverError ∧
    (deleteMedia c7DB 1 true true 5).2 ≠ Resp.success ∧
    (deleteMedia c7DB 1 true true 5).1.media = [mB] ∧
    (deleteMedia c7DB 1 true true 5).1.rules = [] ∧
    (deleteMedia c7DB 1 true true 5).1.analytics = [] := by
  decide

/-- Claim C7 (amended): `deleteMedia` on an absent media id returns
NotFound with no mutation; on a present id it deletes every rule and
every analytics record referencing the media and then the media record
itself, so a second delete of the same id yields NotFound; but a failure
of the subsequent physical file deletion IS propagated: the call reports
success iff the file-removal step did not fail (the record deletions are
committed first either way). -/
theorem c7_delete_media (db : DB) (m : Nat) (fe rf : Bool) (now : Nat) :
    ((∀ x ∈ db.media, x.id ≠ m) → deleteMedia db m fe rf now = (db, Resp.notFoundError)) ∧
    ((∃ x ∈ db.media, x.id = m) →
      ((deleteMedia db m fe rf now).1.rules = db.rules.filter (fun r => !(r.media_id == m)) ∧
       (deleteMedia db m fe rf now).1.analytics =
         db.analytics.filter (fun a => !(a.media_id == some m)) ∧
       (deleteMedia db m fe rf now).1.media = db.media.filter (fun x => !(x.id == m)) ∧
       (∀ (fe2 rf2 : Bool) (now2 : Nat),
         (deleteMedia (deleteMedia db m fe rf now).1 m fe2 rf2 now2).2 =
           Resp.notFoundError) ∧
       ((deleteMedia db m fe rf now).2 = Resp.success ↔ ¬(fe = true ∧ rf = true)))) := by
  constructor
  · intro habs
    have hfind : db.media.find? (fun x => x.id == m) = none := by
      rw [List.find?_eq_none]
      intro x hx
      simp [habs x hx]
    unfold deleteMedia
    rw [hfind]
  · intro hex
    have hfindSome : (db.media.find? (fun x => x.id == m)).isSome = true := by
      rw [List.find?_isSome]
      obtain ⟨x, hx, hxm⟩ := hex
      exact ⟨x, hx, by simp [hxm]⟩
    obtain ⟨mm, hmm⟩ := Option.isSome_iff_exists.mp hfindSome
    have hstate : (deleteMedia db m fe rf now).1 = updateContentTimestamp
        { db with
            rules := db.rules.filter (fun r => !(r.media_id == m)),
            analytics := db.analytics.filter (fun a => !(a.media_id == some m)),
            media := db.media.filter (fun x => !(x.id == m)) } now := by
      unfold deleteMedia
      rw [hmm]
      cases hb : (fe && rf) <;> simp [hb, updateContentTimestamp]
    have hresp : (deleteMedia db m fe rf now).2 =
        if (fe && rf) = true then Resp.serverError else Resp.success := by
      unfold deleteMedia
      rw [hmm]
      cases hb : (fe && rf) <;> simp [hb]
    have hdelNone : ∀ (dbX : DB) (fe2 rf2 : Bool) (now2 : Nat),
        dbX.media.find? (fun x => x.id == m) = none →
        (deleteMedia dbX m fe2 rf2 now2).2 = Resp.notFoundError := by
      intro dbX fe2 rf2 now2 hX
      unfold deleteMedia
      rw [hX]
    refine ⟨by rw [hstate]; rfl, by rw [hstate]; rfl, by rw [hstate]; rfl, ?_, ?_⟩
    · intro fe2 rf2 now2
      apply hdelNone
      rw [hstate]
      show (db.media.filter (fun x => !(x.id == m))).find? (fun x => x.id == m) = none
      rw [List.find?_eq_none]
      intro x hx
      have hx2 := (List.mem_filter.mp hx).2
      simp only [Bool.not_eq_true'] at hx2
      simp [hx2]
    · rw [hresp]
      cases fe <;> cases rf <;> simp

/-- Witness for the amended claim C7 at concrete inputs: deleting the
absent media 5 is a NotFound no-op; deleting the present media 1 (file
removal succeeding) cascades, reports success, and a second delete —
even one whose file removal would fail — answers NotFound. -/
theorem c7_delete_media_witness :
    (deleteMedia c7DB 5 true true 9 = (c7DB, Resp.notFoundError)) ∧
    ((deleteMedia c7DB 1 false false 9).1.rules =
      c7DB.rules.filter (fun r => !(r.media_id == 1))) ∧
    ((deleteMedia (deleteMedia c7DB 1 false false 9).1 1 true true 11).2 =
      Resp.notFoundError) ∧
    ((deleteMedia c7DB 1 false false 9).2 = Resp.success ↔
      ¬(false = true ∧ false = true)) :=
  ⟨(c7_delete_media c7DB 5 true true 9).1 (by decide),
   ((c7_delete_media c7DB 1 false false 9).2 (by decide)).1,
   ((c7_delete_media c7DB 1 false false 9).2 (by decide)).2.2.2.1 true true 11,
   ((c7_delete_media c7DB 1 false false 9).2 (by decide)).2.2.2.2⟩

/-! ### Claim C8 -/

/-- Claim C8, counterexample: on an empty store (no media at all),
`assign("d1", 7)` answers success and inserts a rule row referencing the
nonexistent media 7 — no NotFound, and a mutation happens. -/
theorem c8_counterexample :
    (assignContent emptyDB "d1" 7 (some 10) 3).2 = Resp.success ∧
    (assignContent emptyDB "d1" 7 (some 10) 3).2 ≠ Resp.notFoundError ∧
    (assignContent emptyDB "d1" 7 (some 10) 3).1.rules.map (fun r => r.media_id) = [7] ∧
    emptyDB.media = [] := by
  decide

/-- Claim C8 (amended): `assign_content` performs no media-existence
check.  With the referenced media absent (and the pair not actively
assigned), the call reports success and inserts the rule row referencing
the nonexistent media, leaving the media table unchanged — it does not
report NotFound. -/
theorem c8_assign_missing_media (db : DB) (d : String) (m : Nat) (dur : Option Nat)
    (now : Nat) (hd : d ≠ "") (hm : m ≠ 0) (hdup : hasActivePair db.rules d m = false)
    (_habs : ∀ x ∈ db.media, x.id ≠ m) :
    (assignContent db d m dur now).2 = Resp.success ∧
    (assignContent db d m dur now).2 ≠ Resp.notFoundError ∧
    (assignContent db d m dur now).1.rules.map (fun r => r.media_id) =
      db.rules.map (fun r => r.media_id) ++ [m] ∧
    (assignContent db d m dur now).1.media = db.media := by
  unfold assignContent
  rw [if_neg (by simp [hd, hm]), if_neg (by simp [hdup])]
  refine ⟨rfl, by simp, ?_, rfl⟩
  rw [List.map_append]
  rfl

/-- Witness for the amended claim C8 at a concrete input. -/
theorem c8_assign_missing_media_witness :
    (assignContent baseDB "d2" 9 (some 10) 4).2 = Resp.success ∧
    (assignContent baseDB "d2" 9 (some 10) 4).2 ≠ Resp.notFoundError ∧
    (assignContent baseDB "d2" 9 (some 10) 4).1.rules.map (fun r => r.media_id) =
      baseDB.rules.map (fun r => r.media_id) ++ [9] ∧
    (assignContent baseDB "d2" 9 (some 10) 4).1.media = baseDB.media :=
  c8_assign_missing_media baseDB "d2" 9 (some 10) 4 (by decide) (by decide) (by decide)
    (by decide)

/-! ### Claim C9 -/

/-- Claim C9: a check-in (triggered by a playlist request) for a device
already present updates only last_checkin, liveness and the network
address — custom_name, location, device_name, app_version and creation
time survive, and no row is added; for an unknown device id a row is
created with display name `TV-` plus the first 8 characters of the id,
liveness true, the caller's address, and no custom name or location. -/
theorem c9_checkin_frame (db : DB) (device_id addr : String) (asOf : AsOf) (now : Nat) :
    ((∃ dv ∈ db.devices, dv.device_id = device_id) →
      ((getPlaylist db device_id addr asOf now).1.devices.length = db.devices.length ∧
       ∀ dv ∈ db.devices,
         (dv.device_id ≠ device_id →
           dv ∈ (getPlaylist db device_id addr asOf now).1.devices) ∧
         (dv.device_id = device_id →
           ({ dv with
              last_checkin := some now,
              is_active := true,
              ip_address := some addr } : Device) ∈
             (getPlaylist db device_id addr asOf now).1.devices))) ∧
    ((∀ dv ∈ db.devices, dv.device_id ≠ device_id) →
      (getPlaylist db device_id addr asOf now).1.devices =
        db.devices ++
          [{ device_id := device_id, device_name := "TV-" ++ device_id.take 8,
             custom_name := none, location := none, last_checkin := some now,
             is_active := true, ip_address := some addr, app_version := "1.0",
             created_at := now }]) := by
  have hgp : (getPlaylist db device_id addr asOf now).1 =
      deviceCheckin db device_id addr now := rfl
  rw [hgp]
  constructor
  · intro hex
    have hany : db.devices.any (fun dv => dv.device_id == device_id) = true := by
      rw [List.any_eq_true]
      obtain ⟨dv, hdv, hid⟩ := hex
      exact ⟨dv, hdv, by simp [hid]⟩
    unfold deviceCheckin
    rw [if_pos hany]
    refine ⟨List.length_map _ _, ?_⟩
    intro dv hdv
    constructor
    · intro hne
      refine List.mem_map.mpr ⟨dv, hdv, ?_⟩
      simp [hne]
    · intro hid
      refine List.mem_map.mpr ⟨dv, hdv, ?_⟩
      simp [hid]
  · intro habs
    have hany : db.devices.any (fun dv => dv.device_id == device_id) = false := by
      rw [List.any_eq_false]
      intro dv hdv
      simp [habs dv hdv]
    unfold deviceCheckin
    rw [if_neg (by simp [hany])]

/-- Witness for claim C9 at concrete inputs: a check-in of the known
device dev00001 updates the three volatile fields in place, and a
check-in of the unknown id abcdefghij creates the generated record. -/
theorem c9_checkin_frame_witness :
    (({ devNamed with
        last_checkin := some 7,
        is_active := true,
        ip_address := some "9.9.9.9" } : Device) ∈
      (getPlaylist c9DB "dev00001" "9.9.9.9" c1AsOf 7).1.devices) ∧
    ((getPlaylist emptyDB "abcdefghij" "8.8.8.8" c1AsOf 7).1.devices =
      emptyDB.devices ++
        [{ device_id := "abcdefghij", device_name := "TV-" ++ "abcdefghij".take 8,
           custom_name := none, location := none, last_checkin := some 7,
           is_active := true, ip_address := some "8.8.8.8", app_version := "1.0",
           created_at := 7 }]) :=
  ⟨(((c9_checkin_frame c9DB "dev00001" "9.9.9.9" c1AsOf 7).1
      ⟨devNamed, by decide, by decide⟩).2 devNamed (by decide)).2 (by decide),
   (c9_checkin_frame emptyDB "abcdefghij" "8.8.8.8" c1AsOf 7).2 (by decide)⟩

/-! ### Claim C10 -/

/-- Claim C10: `update_device` overwrites both custom_name and location
on every call, substituting the empty string for any payload field that
is absent — updating only one of the two fields clears the other to the
empty string rather than leaving it unchanged. -/
theorem c10_update_device_overwrites (db : DB) (device_id : String)
    (custom_name location : Option String) :
    (∀ dv ∈ db.devices, dv.device_id = device_id →
      ({ dv with
         custom_name := some (custom_name.getD ""),
         location := some (location.getD "") } : Device) ∈
        (updateDevice db device_id custom_name location).1.devices) ∧
    (∀ dv2 ∈ (updateDevice db device_id custom_name location).1.devices,
      dv2.device_id = device_id →
      dv2.custom_name = some (custom_name.getD "") ∧
      dv2.location = some (location.getD "")) := by
  constructor
  · intro dv hdv hid
    unfold updateDevice
    refine List.mem_map.mpr ⟨dv, hdv, ?_⟩
    simp [hid]
  · intro dv2 hdv2 hid2
    unfold updateDevice at hdv2
    obtain ⟨dv, hdv, hfdv⟩ := List.mem_map.mp hdv2
    by_cases hc : (dv.device_id == device_id) = true
    · simp only [hc, if_true] at hfdv
      rw [← hfdv]
      exact ⟨rfl, rfl⟩
    · simp only [hc, if_false] at hfdv
      subst hfdv
      exact absurd (beq_iff_eq.mpr hid2) hc

/-- Witness for claim C10 at a concrete input: updating only the custom
name of dev00001 (payload without a location) clears the stored location
"HQ" to the empty string. -/
theorem c10_update_device_overwrites_witness :
    (({ devNamed with
        custom_name := some ((some "Reception").getD ""),
        location := some ((none : Option String).getD "") } : Device) ∈
      (updateDevice c9DB "dev00001" (some "Reception") none).1.devices) ∧
    (({ devNamed with
        custom_name := some "Reception",
        location := some "" } : Device).custom_name = some ((some "Reception").getD "") ∧
     ({ devNamed with
        custom_name := some "Reception",
        location := some "" } : Device).location = some ((none : Option String).getD "")) :=
  ⟨(c10_update_device_overwrites c9DB "dev00001" (some "Reception") none).1 devNamed
      (by decide) (by decide),
   (c10_update_device_overwrites c9DB "dev00001" (some "Reception") none).2
      { devNamed with custom_name := some "Reception", location := some "" }
      (by decide) (by decide)⟩

end Signage
